import Mathlib

/-!
Shallow embedding of the Engage collage layout engine from
src/components/EngageImageCollage.tsx. The file holds two component
variants separated by a document marker; the second variant only adds a
click-to-preview modal and computes the same layout plan (identical
visible/remaining/overlay/aspect-ratio logic), so a single embedding of
the plan computation covers both. JS numbers are embedded as Int (the
comparisons used by the code are order comparisons only), optional
fields as Option, and the React element tree as a LayoutPlan record
listing the tiles in render order together with the grid parameters the
component writes into its styles.
-/

/-- MediaItem from EngageImageCollage.tsx lines 3-9: id, src, optional
width/height/alt. -/
structure MediaItem where
  id : String
  src : String
  width : Option Int := none
  height : Option Int := none
  alt : Option String := none
deriving DecidableEq, Repr

/-- Component props (lines 11-17 and the defaults on lines 91-97):
maxVisible (default 4), gapPx (default 6), radiusPx (default 12),
portraitHeroWidthPct (default 66). maxVisible is a Nat: the code only
uses it as the nonnegative end bound of Array.slice. -/
structure Options where
  maxVisible : Nat := 4
  gapPx : Int := 6
  radiusPx : Int := 12
  portraitHeroWidthPct : Int := 66
deriving DecidableEq, Repr

/-- LOCKED_RATIOS.HERO_PORTRAIT (line 21). -/
def RATIO_HERO_PORTRAIT : String := "4 / 5"

/-- LOCKED_RATIOS.HERO_LANDSCAPE (line 22). -/
def RATIO_HERO_LANDSCAPE : String := "3 / 2"

/-- LOCKED_RATIOS.SECONDARY (line 23). -/
def RATIO_SECONDARY : String := "4 / 3"

/-- LOCKED_RATIOS.SQUARE (line 24). -/
def RATIO_SQUARE : String := "1 / 1"

/-- isPortrait (lines 27-35): portrait iff width and height are both
present, both positive, and height > width; otherwise landscape. -/
def isPortrait (item : MediaItem) : Bool :=
  match item.width, item.height with
  | some w, some h => if 0 < w ∧ 0 < h then decide (w < h) else false
  | _, _ => false

/-- One rendered Tile (lines 37-89): the item, the aspectRatio string
passed to the tile, and the overlayText prop (undefined ↦ none). -/
structure TileSpec where
  item : MediaItem
  aspect : String
  overlayText : Option String := none
deriving DecidableEq, Repr

/-- The four mutually exclusive layout branches of the component. -/
inductive Template where
  | single
  | pair
  | portraitHeroStack
  | landscapeHeroRow
deriving DecidableEq, Repr

/-- The layout plan the component renders: tiles in document order plus
the grid parameters written into the styles (wrapper borderRadius, grid
gap, the portrait-hero column fractions `pct`fr / `100-pct`fr, and the
landscape bottom-row column count). -/
structure LayoutPlan where
  template : Template
  tiles : List TileSpec
  gapPx : Int
  radiusPx : Int
  heroColumnFr : Option Int := none
  rightColumnFr : Option Int := none
  cols : Option Nat := none
deriving DecidableEq, Repr

/-- Raw component input: the items prop is either an array or some
malformed non-array value (line 98 guards with Array.isArray). -/
inductive RawInput where
  | list : List MediaItem → RawInput
  | malformed : RawInput
deriving Repr

/-- safeItems (line 98): a malformed non-array items prop is coerced to
the empty list. -/
def safeItems : RawInput → List MediaItem
  | .list l => l
  | .malformed => []

/-- visible (line 102): safeItems.slice(0, maxVisible). -/
def visibleOf (items : List MediaItem) (maxVisible : Nat) : List MediaItem :=
  items.take maxVisible

/-- remaining (line 103): safeItems.length - visible.length (Nat
subtraction: visible is a prefix so this never truncates). -/
def remainingOf (items : List MediaItem) (maxVisible : Nat) : Nat :=
  items.length - (visibleOf items maxVisible).length

/-- overlayText (line 112): "+{remaining} more" when remaining > 0,
else undefined. -/
def overlayTextOf (remaining : Nat) : Option String :=
  if 0 < remaining then some ("+" ++ toString remaining ++ " more") else none

/-- overlayOnIndex (line 111): last visible index when remaining > 0,
else the sentinel -1. -/
def overlayOnIndexOf (remaining : Nat) (visibleLen : Nat) : Int :=
  if 0 < remaining then (visibleLen : Int) - 1 else -1

/-- The per-tile overlay prop: `visibleIndex === overlayOnIndex ?
overlayText : undefined` (lines 150, 175, 188, 216, 229). -/
def tileOverlay (remaining : Nat) (visibleLen : Nat) (visibleIndex : Nat) : Option String :=
  if (visibleIndex : Int) = overlayOnIndexOf remaining visibleLen then overlayTextOf remaining
  else none

/-- Indexed map used to embed the JSX `.map((it, idx) => ...)` calls. -/
def tilesWithIndex (f : Nat → MediaItem → TileSpec) : List MediaItem → List TileSpec
  | [] => []
  | x :: xs => f 0 x :: tilesWithIndex (fun i it => f (i + 1) it) xs

/-- The four layout branches (lines 121-243) given the destructured
visible list (hero = visible[0], secondary = visible.slice(1)) and the
remaining count. Mirrors the source order: 1 image, 2 images, portrait
hero stack, landscape hero row. The single-image branch passes no
overlayText to its Tile (line 126). -/
def buildPlan (hero : MediaItem) (secondary : List MediaItem) (remaining : Nat)
    (opts : Options) : LayoutPlan :=
  let visibleLen := secondary.length + 1
  let heroIsPortrait := isPortrait hero
  if secondary.length = 0 then
    { template := .single
      tiles := [{ item := hero
                  aspect := if heroIsPortrait then RATIO_HERO_PORTRAIT else RATIO_HERO_LANDSCAPE }]
      gapPx := opts.gapPx
      radiusPx := opts.radiusPx }
  else if secondary.length = 1 then
    let ratio := if heroIsPortrait then RATIO_HERO_PORTRAIT else RATIO_SQUARE
    { template := .pair
      tiles := tilesWithIndex
        (fun i it => { item := it
                       aspect := ratio
                       overlayText := tileOverlay remaining visibleLen i })
        (hero :: secondary)
      gapPx := opts.gapPx
      radiusPx := opts.radiusPx }
  else if heroIsPortrait then
    let rightStack := secondary.take (min 3 secondary.length)
    { template := .portraitHeroStack
      tiles := { item := hero
                 aspect := RATIO_HERO_PORTRAIT
                 overlayText := tileOverlay remaining visibleLen 0 } ::
        tilesWithIndex
          (fun idx it => { item := it
                           aspect := RATIO_SECONDARY
                           overlayText := tileOverlay remaining visibleLen (idx + 1) })
          rightStack
      gapPx := opts.gapPx
      radiusPx := opts.radiusPx
      heroColumnFr := some opts.portraitHeroWidthPct
      rightColumnFr := some (100 - opts.portraitHeroWidthPct) }
  else
    let bottomRow := secondary.take (min 3 secondary.length)
    { template := .landscapeHeroRow
      tiles := { item := hero
                 aspect := RATIO_HERO_LANDSCAPE
                 overlayText := tileOverlay remaining visibleLen 0 } ::
        tilesWithIndex
          (fun idx it => { item := it
                           aspect := RATIO_SECONDARY
                           overlayText := tileOverlay remaining visibleLen (idx + 1) })
          bottomRow
      gapPx := opts.gapPx
      radiusPx := opts.radiusPx
      cols := some bottomRow.length }

/-- The component body (lines 91-243). Returns .ok none for an empty
(or coerced-empty) items prop, otherwise the plan. When maxVisible = 0
and the list is nonempty the JS code dereferences visible[0] =
undefined inside isPortrait and throws a TypeError; that case is the
.error branch. -/
def render (raw : RawInput) (opts : Options) : Except String (Option LayoutPlan) :=
  if (safeItems raw).length = 0 then .ok none
  else
    match visibleOf (safeItems raw) opts.maxVisible with
    | [] => .error "TypeError: cannot read properties of undefined"
    | hero :: secondary =>
        .ok (some (buildPlan hero secondary
          (remainingOf (safeItems raw) opts.maxVisible) opts))

/-- The overlay column of a plan, in tile order. -/
def overlayLabels (p : LayoutPlan) : List (Option String) :=
  p.tiles.map TileSpec.overlayText

/-- Example items used by the witness theorems. tA, tB carry no
dimension metadata; tP is portrait 800x1000. -/
def tA : MediaItem := { id := "a", src := "a.jpg" }

def tB : MediaItem := { id := "b", src := "b.jpg" }

def tP : MediaItem := { id := "p", src := "p.jpg", width := some 800, height := some 1000 }

/-- Item with width present but zero: the C4 counterexample input. -/
def zeroWidthItem : MediaItem := { id := "z", src := "z.jpg", width := some 0, height := some 1 }

def exL : MediaItem := { id := "L", src := "L.jpg", width := some 1500, height := some 1000 }

def exP : MediaItem := { id := "P", src := "P.jpg", width := some 800, height := some 1000 }
def exS1 : MediaItem := { id := "s1", src := "s1.jpg" }
def exS2 : MediaItem := { id := "s2", src := "s2.jpg" }
def exS3 : MediaItem := { id := "s3", src := "s3.jpg" }
def exS4 : MediaItem := { id := "s4", src := "s4.jpg" }
def exFive : List MediaItem := [exP, exS1, exS2, exS3, exS4]

def exSeven : List MediaItem :=
  [exP, exS1, exS2, exS3, exS4,
   { id := "s5", src := "s5.jpg" }, { id := "s6", src := "s6.jpg" }]

theorem tilesWithIndex_length (f : Nat → MediaItem → TileSpec) (l : List MediaItem) :
    (tilesWithIndex f l).length = l.length := by
  induction l generalizing f with
  | nil => rfl
  | cons x xs ih => simp [tilesWithIndex, ih]

theorem tilesWithIndex_map_item (f : Nat → MediaItem → TileSpec) (l : List MediaItem)
    (hf : ∀ i x, (f i x).item = x) :
    (tilesWithIndex f l).map TileSpec.item = l := by
  induction l generalizing f with
  | nil => rfl
  | cons x xs ih =>
    have hrest := ih (fun i it => f (i + 1) it) (fun i y => hf (i + 1) y)
    simp [tilesWithIndex, hf, hrest]

theorem render_list_eq (items : List MediaItem) (opts : Options) (hero : MediaItem)
    (secondary : List MediaItem)
    (hv : visibleOf items opts.maxVisible = hero :: secondary) :
    render (.list items) opts =
      .ok (some (buildPlan hero secondary (remainingOf items opts.maxVisible) opts)) := by
  have hne : items.length ≠ 0 := by
    intro h0
    rw [List.eq_nil_of_length_eq_zero h0] at hv
    simp [visibleOf] at hv
  unfold render
  simp only [safeItems]
  rw [if_neg hne, hv]

/-- Claim C2: for every input list and every maxVisible ≥ 1, the visible
set is exactly the first min(len(items), maxVisible) items of the input
in order, its length is min(len(items), maxVisible), and the overflow
count equals max(0, len(items) - maxVisible). -/
theorem C2_visible_prefix_and_overflow (items : List MediaItem) (m : Nat) (_hm : 1 ≤ m) :
    visibleOf items m = items.take (min items.length m) ∧
    (visibleOf items m).length = min items.length m ∧
    ((remainingOf items m : Int) = max 0 ((items.length : Int) - (m : Int))) := by
  refine ⟨?_, ?_, ?_⟩
  · rw [visibleOf, List.take_eq_take]
    omega
  · rw [visibleOf, List.length_take]
    omega
  · rw [remainingOf, visibleOf, List.length_take]
    omega

theorem C2_witness :
    1 ≤ 2 ∧
    (visibleOf [tA, tB, tP] 2 = [tA, tB, tP].take (min [tA, tB, tP].length 2) ∧
     (visibleOf [tA, tB, tP] 2).length = min [tA, tB, tP].length 2 ∧
     ((remainingOf [tA, tB, tP] 2 : Int) = max 0 (([tA, tB, tP].length : Int) - (2 : Int)))) :=
  ⟨by decide, C2_visible_prefix_and_overflow [tA, tB, tP] 2 (by decide)⟩

/-- Claim C4 counterexample: the item zeroWidthItem has both
dimensions present (width = some 0, height = some 1) and
height > width, yet isPortrait classifies it landscape (the code also
requires w > 0 and h > 0), so the claimed biconditional fails at this
item. -/
theorem C4_counterexample_zero_width :
    ¬ (isPortrait zeroWidthItem = true ↔
        ∃ w h, zeroWidthItem.width = some w ∧ zeroWidthItem.height = some h ∧ w < h) := by
  intro hiff
  have : isPortrait zeroWidthItem = true := hiff.mpr ⟨0, 1, rfl, rfl, by decide⟩
  simp [isPortrait, zeroWidthItem] at this

/-- Claim C4 (amended): isPortrait is a pure function of (width,
height): portrait iff both are present, both are positive, and
height > width; landscape in every other case (missing or nonpositive
dimensions included). -/
theorem C4_amended_portrait_iff (it : MediaItem) :
    isPortrait it = true ↔
      ∃ w h, it.width = some w ∧ it.height = some h ∧ 0 < w ∧ 0 < h ∧ w < h := by
  rcases it with ⟨i, s, ow, oh, al⟩
  cases ow with
  | none => simp [isPortrait]
  | some w =>
    cases oh with
    | none => simp [isPortrait]
    | some h =>
      by_cases hp : 0 < w ∧ 0 < h
      · simp only [isPortrait, if_pos hp, decide_eq_true_eq]
        constructor
        · intro hwh
          exact ⟨w, h, rfl, rfl, hp.1, hp.2, hwh⟩
        · rintro ⟨w2, h2, hw2, hh2, _, _, hlt⟩
          cases hw2
          cases hh2
          exact hlt
      · simp only [isPortrait, if_neg hp]
        constructor
        · intro hfalse
          cases hfalse
        · rintro ⟨w2, h2, hw2, hh2, hpw, hph, _⟩
          cases hw2
          cases hh2
          exact absurd ⟨hpw, hph⟩ hp

/-- Claim C5: whenever the visible set is exactly one item, the plan is
a single tile whose aspect ratio is 4:5 when that hero is classified
portrait and 3:2 otherwise (unknown orientation included), with no
overlay. -/
theorem C5_single_tile (items : List MediaItem) (opts : Options) (a : MediaItem)
    (hv : visibleOf items opts.maxVisible = [a]) :
    render (.list items) opts =
      .ok (some { template := .single,
                  tiles := [{ item := a,
                              aspect := if isPortrait a then RATIO_HERO_PORTRAIT
                                        else RATIO_HERO_LANDSCAPE,
                              overlayText := none }],
                  gapPx := opts.gapPx, radiusPx := opts.radiusPx }) := by
  rw [render_list_eq items opts a [] hv]
  simp [buildPlan]

theorem C5_witness :
    visibleOf [exL] ({} : Options).maxVisible = [exL] ∧
    render (.list [exL]) {} =
      .ok (some { template := .single,
                  tiles := [{ item := exL, aspect := RATIO_HERO_LANDSCAPE, overlayText := none }],
                  gapPx := 6, radiusPx := 12 }) :=
  ⟨rfl, C5_single_tile [exL] {} exL rfl⟩

/-- Claim C6: whenever the visible set is exactly two items, the plan
is a side-by-side pair whose two tiles share one aspect ratio fixed by
the hero's orientation: 4:5 if the hero is portrait, 1:1 otherwise. -/
theorem C6_pair_shared_ratio (items : List MediaItem) (opts : Options) (a b : MediaItem)
    (hv : visibleOf items opts.maxVisible = [a, b]) :
    ∃ p, render (.list items) opts = .ok (some p) ∧
      p.template = .pair ∧
      p.tiles.map TileSpec.aspect =
        [if isPortrait a then RATIO_HERO_PORTRAIT else RATIO_SQUARE,
         if isPortrait a then RATIO_HERO_PORTRAIT else RATIO_SQUARE] ∧
      p.tiles.map TileSpec.item = [a, b] := by
  refine ⟨buildPlan a [b] (remainingOf items opts.maxVisible) opts,
    render_list_eq items opts a [b] hv, ?_, ?_, ?_⟩ <;>
    simp [buildPlan, tilesWithIndex]

theorem C6_witness :
    visibleOf [exP, exL] ({} : Options).maxVisible = [exP, exL] ∧
    (∃ p, render (.list [exP, exL]) {} = .ok (some p) ∧
      p.template = .pair ∧
      p.tiles.map TileSpec.aspect = [RATIO_HERO_PORTRAIT, RATIO_HERO_PORTRAIT] ∧
      p.tiles.map TileSpec.item = [exP, exL]) :=
  ⟨rfl, C6_pair_shared_ratio [exP, exL] {} exP exL rfl⟩

/-- Claim C1 counterexample: with maxVisible = 1 and two items, the
overflow count is 1 > 0, but the single-image branch renders its tile
with no overlay label at all, so the "+1 more" label attaches to no
tile (the claim requires it on tile index visibleCount - 1 = 0). -/
theorem C1_counterexample_maxVisible_one :
    0 < remainingOf [exS1, exS2] 1 ∧
    render (.list [exS1, exS2]) { maxVisible := 1 } =
      .ok (some { template := .single,
                  tiles := [{ item := exS1, aspect := RATIO_HERO_LANDSCAPE, overlayText := none }],
                  gapPx := 6, radiusPx := 12 }) :=
  ⟨by decide, rfl⟩

theorem buildPlan_overlay (hero : MediaItem) (secondary : List MediaItem) (rem : Nat)
    (opts : Options) (h1 : 1 ≤ secondary.length) (h3 : secondary.length ≤ 3) :
    (buildPlan hero secondary rem opts).tiles.length = secondary.length + 1 ∧
    (0 < rem → overlayLabels (buildPlan hero secondary rem opts) =
      List.replicate secondary.length none ++ [some ("+" ++ toString rem ++ " more")]) ∧
    (rem = 0 → overlayLabels (buildPlan hero secondary rem opts) =
      List.replicate (secondary.length + 1) none) := by
  rcases secondary with _ | ⟨b, _ | ⟨c, _ | ⟨d, _ | ⟨e, tl⟩⟩⟩⟩
  · exact absurd h1 (by decide)
  · refine ⟨by simp [buildPlan, tilesWithIndex, overlayLabels], ?_, ?_⟩
    · intro hr
      simp [buildPlan, tilesWithIndex, overlayLabels, tileOverlay, overlayOnIndexOf,
        overlayTextOf, hr, Nat.pos_iff_ne_zero]
    · intro h0
      subst h0
      simp [buildPlan, tilesWithIndex, overlayLabels, tileOverlay, overlayOnIndexOf,
        overlayTextOf]
  · by_cases hh : isPortrait hero <;>
      refine ⟨by simp [buildPlan, hh, tilesWithIndex, overlayLabels], ?_, ?_⟩ <;>
      intro hr <;>
      first
      | (subst hr
         simp [buildPlan, hh, tilesWithIndex, overlayLabels, tileOverlay, overlayOnIndexOf,
           overlayTextOf])
      | simp [buildPlan, hh, tilesWithIndex, overlayLabels, tileOverlay, overlayOnIndexOf,
          overlayTextOf, hr, Nat.pos_iff_ne_zero]
  · by_cases hh : isPortrait hero <;>
      refine ⟨by simp [buildPlan, hh, tilesWithIndex, overlayLabels], ?_, ?_⟩ <;>
      intro hr <;>
      first
      | (subst hr
         simp [buildPlan, hh, tilesWithIndex, overlayLabels, tileOverlay, overlayOnIndexOf,
           overlayTextOf])
      | simp [buildPlan, hh, tilesWithIndex, overlayLabels, tileOverlay, overlayOnIndexOf,
          overlayTextOf, hr, Nat.pos_iff_ne_zero]
  · exfalso
    simp at h3

/-- Claim C1 (amended): for every input whose visible count lies
between 2 and 4 (in particular for every maxVisible between 2 and 4,
the only values at which the code can place the label), the rendered
plan attaches the overlay label "+{overflowCount} more" to exactly the
last visible tile when overflowCount > 0, and no tile carries an
overlay label when overflowCount = 0. (With visibleCount = 1 the
single-image branch passes no overlay prop, and with visibleCount ≥ 5
the last visible tile is not rendered, so the label is lost there.) -/
theorem C1_amended_overlay_on_last (items : List MediaItem) (opts : Options)
    (hero : MediaItem) (secondary : List MediaItem)
    (hv : visibleOf items opts.maxVisible = hero :: secondary)
    (h1 : 1 ≤ secondary.length) (h3 : secondary.length ≤ 3) :
    ∃ p, render (.list items) opts = .ok (some p) ∧
      p.tiles.length = secondary.length + 1 ∧
      (0 < remainingOf items opts.maxVisible →
        overlayLabels p = List.replicate secondary.length none ++
          [some ("+" ++ toString (remainingOf items opts.maxVisible) ++ " more")]) ∧
      (remainingOf items opts.maxVisible = 0 →
        overlayLabels p = List.replicate (secondary.length + 1) none) := by
  obtain ⟨hlen, hpos, hzero⟩ :=
    buildPlan_overlay hero secondary (remainingOf items opts.maxVisible) opts h1 h3
  exact ⟨buildPlan hero secondary (remainingOf items opts.maxVisible) opts,
    render_list_eq items opts hero secondary hv, hlen, hpos, hzero⟩

theorem C1_amended_witness :
    visibleOf exFive ({} : Options).maxVisible = exP :: [exS1, exS2, exS3] ∧
    1 ≤ [exS1, exS2, exS3].length ∧ [exS1, exS2, exS3].length ≤ 3 ∧
    (∃ p, render (.list exFive) {} = .ok (some p) ∧
      p.tiles.length = [exS1, exS2, exS3].length + 1 ∧
      (0 < remainingOf exFive ({} : Options).maxVisible →
        overlayLabels p = List.replicate [exS1, exS2, exS3].length none ++
          [some ("+" ++ toString (remainingOf exFive ({} : Options).maxVisible) ++ " more")]) ∧
      (remainingOf exFive ({} : Options).maxVisible = 0 →
        overlayLabels p = List.replicate ([exS1, exS2, exS3].length + 1) none)) :=
  ⟨rfl, by decide, by decide,
    C1_amended_overlay_on_last exFive {} exP [exS1, exS2, exS3] rfl (by decide) (by decide)⟩

/-- Claim C3 (code evaluated at the failing input): for the 3-item
input with a portrait hero the plan is indeed the portrait-hero-stack
with the hero at 66fr and locked 4:5, with no overlay; but both
secondary tiles are rendered with the locked fixed aspect ratio
SECONDARY = "4 / 3", not height-coupled at 50% of the hero's height
with no fixed ratio as the claim and DESIGN.md ("3 Images (Portrait
Hero)", "Exception: For 3-image layouts with portrait hero, secondaries
use flexible height (50% each)") require. -/
theorem C3_secondaries_locked_to_4_3 :
    render (.list [exP, exS1, exS2]) {} =
      .ok (some { template := .portraitHeroStack,
                  tiles := [{ item := exP, aspect := RATIO_HERO_PORTRAIT, overlayText := none },
                            { item := exS1, aspect := RATIO_SECONDARY, overlayText := none },
                            { item := exS2, aspect := RATIO_SECONDARY, overlayText := none }],
                  gapPx := 6, radiusPx := 12,
                  heroColumnFr := some 66, rightColumnFr := some 34 }) ∧
    RATIO_SECONDARY = "4 / 3" :=
  ⟨rfl, rfl⟩

/-- Claim C7: the engine is a total function that signals no error for
any well-formed invocation (maxVisible ≥ 1, the input contract's lower
bound): every such call returns .ok; the empty list and a malformed
non-list items prop both yield the empty no-render result .ok none;
and a missing width never errors, it only forces the landscape
classification (and hence the landscape-fallback ratios). -/
theorem C7_no_failure_modes (raw : RawInput) (opts : Options) (hm : 1 ≤ opts.maxVisible) :
    (∃ r, render raw opts = .ok r) ∧
    render (.list []) opts = .ok none ∧
    render .malformed opts = .ok none ∧
    (∀ it : MediaItem, it.width = none → isPortrait it = false) := by
  refine ⟨?_, rfl, rfl, ?_⟩
  · cases raw with
    | malformed => exact ⟨none, rfl⟩
    | list items =>
      cases items with
      | nil => exact ⟨none, rfl⟩
      | cons x xs =>
        have hv : visibleOf (x :: xs) opts.maxVisible = x :: xs.take (opts.maxVisible - 1) := by
          rw [visibleOf, List.take_cons hm]
        exact ⟨some (buildPlan x (xs.take (opts.maxVisible - 1))
            (remainingOf (x :: xs) opts.maxVisible) opts),
          render_list_eq (x :: xs) opts x _ hv⟩
  · intro it hw
    rcases it with ⟨i, s, ow, oh, al⟩
    cases hw
    simp [isPortrait]

theorem C7_witness :
    1 ≤ ({} : Options).maxVisible ∧
    ((∃ r, render (.list [exS1]) {} = .ok r) ∧
     render (.list []) {} = .ok none ∧
     render .malformed {} = .ok none ∧
     (∀ it : MediaItem, it.width = none → isPortrait it = false)) :=
  ⟨by decide, C7_no_failure_modes (.list [exS1]) {} (by decide)⟩

/-- Claim C8: the engine is deterministic: two invocations whose items
prop and whose four options (maxVisible, gap, corner radius, hero width
percent) are structurally equal produce structurally equal results; the
output depends on nothing else. -/
theorem C8_deterministic (raw raw2 : RawInput) (opts opts2 : Options)
    (hraw : raw = raw2)
    (hmax : opts.maxVisible = opts2.maxVisible)
    (hgap : opts.gapPx = opts2.gapPx)
    (hrad : opts.radiusPx = opts2.radiusPx)
    (hpct : opts.portraitHeroWidthPct = opts2.portraitHeroWidthPct) :
    render raw opts = render raw2 opts2 := by
  cases opts
  cases opts2
  cases hraw
  simp_all

theorem C8_witness :
    RawInput.list exFive = RawInput.list exFive ∧
    ({} : Options).maxVisible = ({} : Options).maxVisible ∧
    ({} : Options).gapPx = ({} : Options).gapPx ∧
    ({} : Options).radiusPx = ({} : Options).radiusPx ∧
    ({} : Options).portraitHeroWidthPct = ({} : Options).portraitHeroWidthPct ∧
    render (.list exFive) {} = render (.list exFive) {} :=
  ⟨rfl, rfl, rfl, rfl, rfl,
    C8_deterministic (.list exFive) (.list exFive) {} {} rfl rfl rfl rfl rfl⟩

theorem tilesWithIndex_secondary_map_item (rem vlen : Nat) (l : List MediaItem) :
    (tilesWithIndex
      (fun idx it => { item := it
                       aspect := RATIO_SECONDARY
                       overlayText := tileOverlay rem vlen (idx + 1) })
      l).map TileSpec.item = l :=
  tilesWithIndex_map_item _ l (fun _ _ => rfl)

/-- Claim C9: every 3-or-more-item layout renders exactly 1 hero plus
min(3, secondaryCount) secondary tiles; the rendered tiles display the
hero followed by only the first 3 secondaries (visible items at index 4
and beyond appear in no tile), while the "+N more" count stays
len(items) - visibleCount, unaffected by the dropped tiles. -/
theorem C9_secondary_cap_and_drop (items : List MediaItem) (opts : Options)
    (hero : MediaItem) (secondary : List MediaItem)
    (hv : visibleOf items opts.maxVisible = hero :: secondary)
    (h2 : 2 ≤ secondary.length) :
    ∃ p, render (.list items) opts = .ok (some p) ∧
      p.tiles.length = 1 + min 3 secondary.length ∧
      p.tiles.map TileSpec.item = hero :: secondary.take 3 ∧
      remainingOf items opts.maxVisible = items.length - (secondary.length + 1) := by
  have h0 : ¬ secondary.length = 0 := by omega
  have h1 : ¬ secondary.length = 1 := by omega
  have htake : secondary.take (min 3 secondary.length) = secondary.take 3 := by
    rw [List.take_eq_take]
    omega
  refine ⟨buildPlan hero secondary (remainingOf items opts.maxVisible) opts,
    render_list_eq items opts hero secondary hv, ?_, ?_, ?_⟩
  · by_cases hh : isPortrait hero <;>
      simp [buildPlan, h0, h1, hh, tilesWithIndex_length, List.length_take] <;>
      omega
  · by_cases hh : isPortrait hero <;>
      simp [buildPlan, h0, h1, hh, htake, tilesWithIndex_secondary_map_item]
  · rw [remainingOf, hv]
    simp

theorem C9_witness :
    visibleOf exSeven 6 = exP :: [exS1, exS2, exS3, exS4, { id := "s5", src := "s5.jpg" }] ∧
    2 ≤ [exS1, exS2, exS3, exS4, { id := "s5", src := "s5.jpg" }].length ∧
    (∃ p, render (.list exSeven) { maxVisible := 6 } = .ok (some p) ∧
      p.tiles.length = 1 + min 3 [exS1, exS2, exS3, exS4, { id := "s5", src := "s5.jpg" }].length ∧
      p.tiles.map TileSpec.item =
        exP :: [exS1, exS2, exS3, exS4, ({ id := "s5", src := "s5.jpg" } : MediaItem)].take 3 ∧
      remainingOf exSeven 6 =
        exSeven.length - ([exS1, exS2, exS3, exS4, { id := "s5", src := "s5.jpg" }].length + 1)) :=
  ⟨rfl, by decide,
    C9_secondary_cap_and_drop exSeven { maxVisible := 6 } exP
      [exS1, exS2, exS3, exS4, { id := "s5", src := "s5.jpg" }] rfl (by decide)⟩

/-- Claim C10: every layout preserves input order: for every input with
a nonempty visible set the rendered tiles display, in position order,
exactly the first min(visibleCount, 4) visible items — the hero is
visible[0] and the tile at rendered position j displays visible[j],
with no reordering in any template. -/
theorem take_three_cons_cons (b c : MediaItem) (rest : List MediaItem) :
    List.take (3 ⊓ (rest.length + 1 + 1)) (b :: c :: rest) = b :: c :: List.take 1 rest := by
  have h : 3 ⊓ (rest.length + 1 + 1) = (1 ⊓ rest.length) + 1 + 1 := by omega
  have h2 : List.take (1 ⊓ rest.length) rest = List.take 1 rest := by
    rw [List.take_eq_take]
    omega
  rw [h, List.take_succ_cons, List.take_succ_cons, h2]

theorem C10_order_preserving (items : List MediaItem) (opts : Options)
    (hero : MediaItem) (secondary : List MediaItem)
    (hv : visibleOf items opts.maxVisible = hero :: secondary) :
    ∃ p, render (.list items) opts = .ok (some p) ∧
      p.tiles.map TileSpec.item = (hero :: secondary).take 4 := by
  refine ⟨buildPlan hero secondary (remainingOf items opts.maxVisible) opts,
    render_list_eq items opts hero secondary hv, ?_⟩
  rcases secondary with _ | ⟨b, _ | ⟨c, rest⟩⟩
  · simp [buildPlan]
  · simp [buildPlan, tilesWithIndex]
  · have h0 : ¬ (b :: c :: rest).length = 0 := by simp
    have h1 : ¬ (b :: c :: rest).length = 1 := by simp
    by_cases hh : isPortrait hero <;>
      simp [buildPlan, h0, h1, hh, tilesWithIndex_secondary_map_item,
        List.take_succ_cons] <;>
      exact take_three_cons_cons b c rest

theorem C10_witness :
    visibleOf [exL, exS1, exS2] ({} : Options).maxVisible = exL :: [exS1, exS2] ∧
    (∃ p, render (.list [exL, exS1, exS2]) {} = .ok (some p) ∧
      p.tiles.map TileSpec.item = (exL :: [exS1, exS2]).take 4) :=
  ⟨rfl, C10_order_preserving [exL, exS1, exS2] {} exL [exS1, exS2] rfl⟩
